import Mathlib

/-!
Shallow embedding of the dataset completeness/acquisition planner of
`geodata` (src/geodata/dataset.py, with module-level data per
src/geodata/datasets/era5.py).  Every definition is translated from the
source; line references point into src/geodata/dataset.py.
-/

namespace Geodata

/-- Filesystem state seen by the planner: `os.path.isfile` and
`os.path.isdir` as pure predicates on paths. -/
structure FS where
  isfile : String → Bool
  isdir : String → Bool

/-- Python `slice(start, stop, step)` as used for `years`/`months`
(`step` is `None` when not given). -/
structure PySlice where
  start : Int
  stop : Int
  step : Option Int
deriving DecidableEq, Repr

/-- Errors a construction can abort with.  Python raises `ValueError` for
the bounds problems (dataset.py lines 93, 96), `calendar.IllegalMonthError`
from `monthrange`, `KeyError` for an unknown config name (line 54) or a
template field missing from the key (`str.format_map`), and a type error
when a `url` config entry has the wrong shape for the branch using it. -/
inductive GErr
  | unknownConfig
  | badBoundsShape
  | missingBoundsModis
  | illegalMonth
  | templateKey
  | badUrlShape
  | noBounds
deriving DecidableEq, Repr

/-- The `bounds` request parameter: either a Python list (of ordinates) or
some non-list value; `Dataset.__init__` checks `type(bounds) is list and
len(bounds) == 4` (line 88).  Ordinates are modelled as integers; they are
only stored and compared, never computed with. -/
inductive BoundsVal
  | lst (xs : List Int)
  | nonList
deriving DecidableEq, Repr

/-- Named fields a filename/URL template can reference. -/
inductive TField
  | year
  | month
  | day
  | spinup
deriving DecidableEq, Repr

/-- One piece of a template string: a literal chunk, or a `\x7bfield\x7d`
substitution zero-padded to `pad` digits (`pad = 0`: no padding, as in
`\x7byear\x7d`; `pad = 2` models `\x7bmonth:0>2\x7d`). -/
inductive TItem
  | lit (s : String)
  | fld (f : TField) (pad : Nat)
deriving DecidableEq, Repr

/-- The dict passed to `str.format_map` in `Dataset.datasetfn`
(lines 234-244): `year` is always present, the other keys only when the
arg count / spinup flag supplies them. -/
structure TKey where
  year : Int
  month : Option Int
  day : Option Int
  spinup : Option Int
deriving DecidableEq, Repr

def lookupField (k : TKey) : TField → Option Int
  | .year => some k.year
  | .month => k.month
  | .day => k.day
  | .spinup => k.spinup

/-- Zero-pad a rendered value to width `w` (Python format spec `0>w`). -/
def padStr (w : Nat) (s : String) : String :=
  if s.length < w then String.mk (List.replicate (w - s.length) '0') ++ s
  else s

def renderItem (k : TKey) : TItem → Except GErr String
  | .lit s => .ok s
  | .fld f pad =>
    match lookupField k f with
    | some v => .ok (padStr pad (toString v))
    | none => .error .templateKey

/-- Python `fn.format_map(dataset)`: substitute every field of the template from
the key, failing (Python `KeyError`) on a field the key does not carry. -/
def render (t : List TItem) (k : TKey) : Except GErr String :=
  match t with
  | [] => .ok ""
  | it :: rest =>
    match renderItem k it with
    | .error e => .error e
    | .ok s =>
      match render rest k with
      | .error e => .error e
      | .ok s2 => .ok (s ++ s2)

/-- The `url` entry of a weather-data config: a single template string, a
pair of template strings (`*_multiple` granularities), or absent (the
`era5` config declares no `url`). -/
inductive UrlCfg
  | single (t : List TItem)
  | pair (a b : List TItem)
  | absent
deriving Repr

/-- One named entry of `weather_data_config` (the fields the planner
reads; the rest is passed opaquely to collaborators). -/
structure WeatherConfig where
  file_granularity : String
  fn : List TItem
  url : UrlCfg
  band : Int
deriving Repr

/-- The dataset module (`geodata.datasets.<module>`): its storage root,
spinup declaration and config dict (lines 53, 61, 242-243). -/
structure DatasetModule where
  datadir : String
  spinup_var : Bool
  spinup_year : Int → Int
  wdc : String → Option WeatherConfig

/-- Result of `Dataset.datasetfn`: a rendered string, or the Python
literal `False` returned for an unsupported arg count (line 241). -/
inductive FnResult
  | str (s : String)
  | pyFalse
deriving DecidableEq, Repr

/-- The dict construction of `datasetfn` (lines 234-244): build the key
from the positional args, then inject `spinup` when the module asks. -/
def mkKey (dm : DatasetModule) (y : Int) (m d : Option Int) : TKey :=
  let k : TKey := ⟨y, m, d, none⟩
  if dm.spinup_var then { k with spinup := some (dm.spinup_year y) } else k

/-- Source `Dataset.datasetfn(fn, *args)` (lines 232-246): three args give a
(year, month, day) key, two give (year, month), one gives (year), any
other count returns `False` before any substitution is attempted. -/
def datasetfn (dm : DatasetModule) (fn : List TItem) (args : List Int) :
    Except GErr FnResult :=
  match args with
  | [y, m, d] =>
    match render fn (mkKey dm y (some m) (some d)) with
    | .error e => .error e
    | .ok s => .ok (.str s)
  | [y, m] =>
    match render fn (mkKey dm y (some m) none) with
    | .error e => .error e
    | .ok s => .ok (.str s)
  | [y] =>
    match render fn (mkKey dm y none none) with
    | .error e => .error e
    | .ok s => .ok (.str s)
  | _ => .ok .pyFalse

/-- Helper: `datasetfn` at a call site that uses the result as a path/URL string.
All such call sites pass 1-3 args, so the `pyFalse` case never arises
there; it is mapped to the template error for totality. -/
def datasetfnS (dm : DatasetModule) (fn : List TItem) (args : List Int) :
    Except GErr String :=
  match datasetfn dm fn args with
  | .error e => .error e
  | .ok (.str s) => .ok s
  | .ok .pyFalse => .error .templateKey

/-- Python `years.step if years.step else 1` (lines 109, 111): `None` and `0`
are falsy, so both default to 1. -/
def effStep (s : Option Int) : Int :=
  match s with
  | none => 1
  | some v => if v = 0 then 1 else v

/-- Length of Python `range(a, b, s)`: ceiling division of the span by
the step, clamped at zero (`s = 0` cannot reach this point, see
`effStep`). -/
def pyRangeLen (a b s : Int) : Nat :=
  if 0 < s then ((b - a + s - 1) / s).toNat
  else if s < 0 then ((a - b + (-s) - 1) / (-s)).toNat
  else 0

/-- Python `range(a, b, s)` as the list `[a, a+s, a+2*s, ...]` of
`pyRangeLen` elements. -/
def pyRange (a b s : Int) : List Int :=
  (List.range (pyRangeLen a b s)).map (fun i : Nat => a + s * (i : Int))

/-- Lines 109-112: `range(r.start, r.stop + step, step)` with the step
defaulted by `effStep` — the planner's expansion of a `years`/`months`
slice. -/
def expandRange (r : PySlice) : List Int :=
  pyRange r.start (r.stop + effStep r.step) (effStep r.step)

/-- Python `calendar.isleap(year)` (Python `%` is floor-mod, as is Lean's `%`
on `Int` for positive modulus). -/
def isleap (y : Int) : Bool :=
  y % 4 == 0 && (y % 100 != 0 || y % 400 == 0)

/-- Python `calendar.mdays`. -/
def mdays : List Nat := [0, 31, 28, 31, 30, 31, 30, 31, 31, 30, 31, 30, 31]

/-- Day count of `calendar.monthrange(y, m)` for a valid month:
`mdays[month] + (month == 2 and isleap(year))`. -/
def monthDays (y m : Int) : Nat :=
  mdays.getD m.toNat 0 + (if m == 2 && isleap y then 1 else 0)

/-- Python `calendar.monthrange(y, m)[1]` (line 117): raises `IllegalMonthError`
for a month outside 1..12. -/
def monthrangeDays (y m : Int) : Except GErr Nat :=
  if 1 ≤ m ∧ m ≤ 12 then .ok (monthDays y m) else .error .illegalMonth

/-- Acquisition-request shape carried by a `toDownload` entry beyond
(config, filename): a single URL (line 130), a URL pair (lines 150-155,
189-194), the bare (year, month) key for the `era5` module (line 172), or
(bounds, band) for the land-cover case (lines 207-212). -/
inductive AcqShape
  | url (u : String)
  | urls (u1 u2 : String)
  | yearMonth (y m : Int)
  | boundsBand (b : BoundsVal) (band : Int)
deriving DecidableEq, Repr

/-- Access `self.weatherconfig['url']` used as one template string. -/
def urlSingle : UrlCfg → Except GErr (List TItem)
  | .single t => .ok t
  | _ => .error .badUrlShape

/-- Accesses `self.weatherconfig['url'][0]` and `[1]` used as two templates. -/
def urlPair : UrlCfg → Except GErr (List TItem × List TItem)
  | .pair a b => .ok (a, b)
  | _ => .error .badUrlShape

/-- One enumerated artifact: its temporal key (the args handed to
`datasetfn`), its filename rendering, and its acquisition shape.  The two
`Except` fields keep the source's evaluation order: the filename is
rendered for every artifact, the shape only when the file is missing. -/
structure Job where
  key : List Int
  filenameE : Except GErr String
  shape : Except GErr AcqShape

/-- The cross product `[(yr, mo) for yr in yrs for mo in mos]`
(lines 117, 137, 161, 179). -/
def crossPairs (yrs mos : List Int) : List (Int × Int) :=
  yrs.flatMap (fun y => mos.map (fun m => (y, m)))

/-- Left-to-right evaluation of the `mo_tuples` comprehension body. -/
def moTuplesGo : List (Int × Int) → Except GErr (List (Int × Int × Nat))
  | [] => .ok []
  | q :: rest =>
    match monthrangeDays q.1 q.2 with
    | .error e => .error e
    | .ok nd =>
      match moTuplesGo rest with
      | .error e => .error e
      | .ok l => .ok ((q.1, q.2, nd) :: l)

/-- Source `mo_tuples = [(yr, mo, monthrange(yr, mo)[1]) ...]` (lines 117, 137):
the comprehension is eager, so a bad month aborts before any scanning. -/
def moTuples (yrs mos : List Int) : Except GErr (List (Int × Int × Nat)) :=
  moTuplesGo (crossPairs yrs mos)

/-- Missing-file shape of the `daily`/`dailymeans` branch (line 130). -/
def dailyShapeE (dm : DatasetModule) (url : UrlCfg) (args : List Int) :
    Except GErr AcqShape :=
  match urlSingle url with
  | .error e => .error e
  | .ok t =>
    match datasetfnS dm t args with
    | .error e => .error e
    | .ok u => .ok (.url u)

/-- Missing-file shape of the `*_multiple` branches (lines 150-155,
189-194). -/
def multiShapeE (dm : DatasetModule) (url : UrlCfg) (args : List Int) :
    Except GErr AcqShape :=
  match urlPair url with
  | .error e => .error e
  | .ok (t1, t2) =>
    match datasetfnS dm t1 args, datasetfnS dm t2 args with
    | .error e, _ => .error e
    | .ok _, .error e => .error e
    | .ok u1, .ok u2 => .ok (.urls u1 u2)

/-- The `daily` / `dailymeans` branch (lines 114-132): one artifact per
(year, month, day), day running over `range(1, nodays + 1)`. -/
def mkJobsDaily (dm : DatasetModule) (wc : WeatherConfig)
    (yrs mos : List Int) : Except GErr (List Job) :=
  match moTuples yrs mos with
  | .error e => .error e
  | .ok tuples =>
    .ok (tuples.flatMap (fun t =>
      (List.range' 1 t.2.2).map (fun d : Nat =>
        { key := [t.1, t.2.1, (d : Int)]
          filenameE := datasetfnS dm wc.fn [t.1, t.2.1, (d : Int)]
          shape := dailyShapeE dm wc.url [t.1, t.2.1, (d : Int)] })))

/-- The `daily_multiple` branch (lines 134-157): identical enumeration, the
shape carries two rendered URLs. -/
def mkJobsDailyMulti (dm : DatasetModule) (wc : WeatherConfig)
    (yrs mos : List Int) : Except GErr (List Job) :=
  match moTuples yrs mos with
  | .error e => .error e
  | .ok tuples =>
    .ok (tuples.flatMap (fun t =>
      (List.range' 1 t.2.2).map (fun d : Nat =>
        { key := [t.1, t.2.1, (d : Int)]
          filenameE := datasetfnS dm wc.fn [t.1, t.2.1, (d : Int)]
          shape := multiShapeE dm wc.url [t.1, t.2.1, (d : Int)] })))

/-- The `monthly` branch (lines 159-176): one artifact per (year, month); the
`era5` module gets the bare key and everyone else a rendered URL. -/
def mkJobsMonthly (dm : DatasetModule) (wc : WeatherConfig)
    (module : String) (yrs mos : List Int) : List Job :=
  (crossPairs yrs mos).map (fun q =>
    { key := [q.1, q.2]
      filenameE := datasetfnS dm wc.fn [q.1, q.2]
      shape :=
        if module = "era5" then .ok (.yearMonth q.1 q.2)
        else
          match urlSingle wc.url with
          | .error e => .error e
          | .ok t =>
            match datasetfnS dm t [q.1, q.2] with
            | .error e => .error e
            | .ok u => .ok (.url u) })

/-- The `monthly_multiple` branch (lines 178-196). -/
def mkJobsMonthlyMulti (dm : DatasetModule) (wc : WeatherConfig)
    (yrs mos : List Int) : List Job :=
  (crossPairs yrs mos).map (fun q =>
    { key := [q.1, q.2]
      filenameE := datasetfnS dm wc.fn [q.1, q.2]
      shape := multiShapeE dm wc.url [q.1, q.2] })

/-- Land-cover branch (lines 198-214): one artifact per year, shape
(bounds, band); `self.bounds` is always set when this branch runs. -/
def mkJobsModis (dm : DatasetModule) (wc : WeatherConfig)
    (bounds : Option BoundsVal) (yrs : List Int) : List Job :=
  yrs.map (fun y =>
    { key := [y]
      filenameE := datasetfnS dm wc.fn [y]
      shape :=
        match bounds with
        | some b => .ok (.boundsBand b wc.band)
        | none => .error .noBounds })

/-- The request parameters of `Dataset.__init__` after its presence
checks: `module`, `weather_data_config` and `years` are required
(lines 47-65), `months` and `bounds` optional. -/
structure DatasetParams where
  module : String
  weather_data_config : String
  years : PySlice
  months : Option PySlice
  bounds : Option BoundsVal

/-- Strategy dispatch of the `elif` chain (lines 114, 134, 159, 178, 198):
granularity tags first, then the config-name special case for land cover;
any other combination enumerates nothing. -/
def mkJobs (dm : DatasetModule) (wc : WeatherConfig) (p : DatasetParams)
    (yrs mos : List Int) : Except GErr (List Job) :=
  if wc.file_granularity = "daily" ∨ wc.file_granularity = "dailymeans" then
    mkJobsDaily dm wc yrs mos
  else if wc.file_granularity = "daily_multiple" then
    mkJobsDailyMulti dm wc yrs mos
  else if wc.file_granularity = "monthly" then
    .ok (mkJobsMonthly dm wc p.module yrs mos)
  else if wc.file_granularity = "monthly_multiple" then
    .ok (mkJobsMonthlyMulti dm wc yrs mos)
  else if p.weather_data_config = "modis_land_cover" then
    .ok (mkJobsModis dm wc p.bounds yrs)
  else
    .ok []

/-- Mutable scan bookkeeping of `__init__`: `prepared`, the three file
lists and `incomplete_count` (lines 80-84). -/
structure ScanSt where
  prepared : Bool
  incomplete_count : Nat
  toDownload : List (String × String × AcqShape)
  downloadedFiles : List (String × String)
  totalFiles : List (String × String)
deriving Repr

/-- One loop body of the scan (e.g. lines 123-132): render the filename,
append to `totalFiles`, then classify by `os.path.isfile`; a missing file
clears `prepared`, bumps the counter when `check_complete`, and appends
the acquisition entry (forcing the lazily stored shape). -/
def scanStep (fs : FS) (cfg : String) (check : Bool) (st : ScanSt)
    (j : Job) : Except GErr ScanSt :=
  match j.filenameE with
  | .error e => .error e
  | .ok filename =>
    if fs.isfile filename then
      .ok { st with
              totalFiles := st.totalFiles ++ [(cfg, filename)]
              downloadedFiles := st.downloadedFiles ++ [(cfg, filename)] }
    else
      match j.shape with
      | .error e => .error e
      | .ok sh =>
        .ok { st with
                prepared := false
                incomplete_count :=
                  st.incomplete_count + (if check then 1 else 0)
                toDownload := st.toDownload ++ [(cfg, filename, sh)]
                totalFiles := st.totalFiles ++ [(cfg, filename)] }

/-- The scan loop over the enumerated artifacts. -/
def scanJobs (fs : FS) (cfg : String) (check : Bool) (st : ScanSt) :
    List Job → Except GErr ScanSt
  | [] => .ok st
  | j :: js =>
    match scanStep fs cfg check st j with
    | .error e => .error e
    | .ok st2 => scanJobs fs cfg check st2 js

/-- Lines 100-112 plus the strategy/scan part of `__init__`: the initial
`prepared` and the `check_complete` flag both equal
`os.path.isdir(datadir)` (lines 100-107), and the scan starts from empty
lists (lines 80-84). -/
def scanPart (dm : DatasetModule) (wc : WeatherConfig) (p : DatasetParams)
    (fs : FS) : Except GErr ScanSt :=
  match mkJobs dm wc p (expandRange p.years)
      (expandRange (p.months.getD ⟨1, 12, none⟩)) with
  | .error e => .error e
  | .ok jobs =>
    scanJobs fs p.weather_data_config (fs.isdir dm.datadir)
      ⟨fs.isdir dm.datadir, 0, [], [], []⟩ jobs

/-- Lines 86-98: resolve `bounds` to the (xs, ys) slice endpoint pairs.
The source unpacks `x1, y1, x2, y2 = bounds` and sets
`xs = slice(x1, x2)`, `ys = slice(y2, y1)` (lines 89-91); a non-list or
wrong-length value raises (line 93), and an absent value raises only for
the `modis_land_cover` config (line 96). -/
def resolveSlices (b : Option BoundsVal) (cfg : String) :
    Except GErr (Option ((Int × Int) × (Int × Int))) :=
  match b with
  | some (.lst [x1, y1, x2, y2]) => .ok (some ((x1, x2), (y2, y1)))
  | some _ => .error .badBoundsShape
  | none =>
    if cfg = "modis_land_cover" then .error .missingBoundsModis
    else .ok none

/-- The condition under which lines 86-98 raise, as a boolean on the
request. -/
def boundsInvalid (p : DatasetParams) : Bool :=
  match p.bounds with
  | some (.lst xs) => xs.length != 4
  | some .nonList => true
  | none => p.weather_data_config == "modis_land_cover"

/-- Which of the two bounds errors lines 93/96 raise. -/
def boundsError (p : DatasetParams) : GErr :=
  match p.bounds with
  | some _ => .badBoundsShape
  | none => .missingBoundsModis

/-- Planner state after a successful construction. -/
structure DState where
  module : String
  config : String
  datadir : String
  months : PySlice
  xs : Option (Int × Int)
  ys : Option (Int × Int)
  bounds : Option BoundsVal
  prepared : Bool
  toDownload : List (String × String × AcqShape)
  downloadedFiles : List (String × String)
  totalFiles : List (String × String)
  incomplete_count : Nat
deriving Repr

/-- Source `Dataset.__init__` (lines 46-230): look up the named config
(line 54, `KeyError` when absent), default `months` to `slice(1, 12)`
(line 70), resolve bounds (lines 86-98), then enumerate and scan
(lines 100-214).  The trailing `if not self.prepared` block only logs. -/
def datasetInit (dm : DatasetModule) (p : DatasetParams) (fs : FS) :
    Except GErr DState :=
  match dm.wdc p.weather_data_config with
  | none => .error .unknownConfig
  | some wc =>
    match resolveSlices p.bounds p.weather_data_config with
    | .error e => .error e
    | .ok slices =>
      match scanPart dm wc p fs with
      | .error e => .error e
      | .ok st =>
        .ok { module := p.module
              config := p.weather_data_config
              datadir := dm.datadir
              months := p.months.getD ⟨1, 12, none⟩
              xs := slices.map Prod.fst
              ys := slices.map Prod.snd
              bounds := p.bounds
              prepared := st.prepared
              toDownload := st.toDownload
              downloadedFiles := st.downloadedFiles
              totalFiles := st.totalFiles
              incomplete_count := st.incomplete_count }

/-- Projection of a `toDownload` entry back to the (config, filename)
artifact it describes. -/
def missingProj (e : String × String × AcqShape) : String × String :=
  (e.1, e.2.1)

/-- Lines 278-279 of `Dataset.get_data`: after the delegated acquisition
call returns, flip `prepared` to true exactly when
`downloadedFiles == totalFiles`; otherwise the state is untouched. -/
def get_data_check (s : DState) : DState :=
  if s.downloadedFiles = s.totalFiles then { s with prepared := true } else s

/-! Concrete instances used to exercise the definitions. -/

/-- A `monthly` config in the style of a URL-templated dataset family. -/
def exWCmonthly : WeatherConfig :=
  { file_granularity := "monthly",
    fn := [.fld .year 0, .lit "-", .fld .month 2],
    url := .single [.lit "u", .fld .month 0], band := 0 }

/-- A `daily` config. -/
def exWCdaily : WeatherConfig :=
  { file_granularity := "daily",
    fn := [.fld .year 0, .lit "-", .fld .month 2, .lit "-", .fld .day 2],
    url := .single [.lit "u", .fld .day 0], band := 0 }

/-- A land-cover config (granularity tag unknown to the five branches,
so the config-name special case selects the strategy). -/
def exWCmodis : WeatherConfig :=
  { file_granularity := "selected_bands",
    fn := [.lit "lc-", .fld .year 0],
    url := .absent, band := 5 }

/-- A config whose granularity none of the five branches handle. -/
def exWCyearly : WeatherConfig :=
  { file_granularity := "yearly",
    fn := [.fld .year 0],
    url := .absent, band := 0 }

/-- A module with one `monthly` config named `cfg`. -/
def exDM : DatasetModule :=
  { datadir := "ddir", spinup_var := false, spinup_year := id,
    wdc := fun c => if c = "cfg" then some exWCmonthly else none }

/-- A module with a `modis_land_cover` config. -/
def exDM2 : DatasetModule :=
  { datadir := "ddir", spinup_var := false, spinup_year := id,
    wdc := fun c => if c = "modis_land_cover" then some exWCmodis else none }

/-- A module whose `cfg` config has the unhandled `yearly` tag. -/
def exDM3 : DatasetModule :=
  { datadir := "ddir", spinup_var := false, spinup_year := id,
    wdc := fun c => if c = "cfg" then some exWCyearly else none }

/-- A two-month monthly request against `exDM`. -/
def exP : DatasetParams :=
  { module := "m", weather_data_config := "cfg",
    years := ⟨2020, 2020, none⟩, months := some ⟨1, 2, none⟩,
    bounds := none }

/-- The same request with the documented (north, west, south, east)
bounds list `[50, -1, 49, 1]` — the example of era5.py line 101. -/
def exPbounds : DatasetParams :=
  { module := "m", weather_data_config := "cfg",
    years := ⟨2020, 2020, none⟩, months := some ⟨1, 1, none⟩,
    bounds := some (.lst [50, -1, 49, 1]) }

/-- A land-cover request with `bounds` omitted. -/
def exPmodis : DatasetParams :=
  { module := "m", weather_data_config := "modis_land_cover",
    years := ⟨2020, 2020, none⟩, months := none, bounds := none }

/-- Every file present, storage directory absent. -/
def fsFilesNoDir : FS := ⟨fun _ => true, fun _ => false⟩

/-- No file present, storage directory exists. -/
def fsDirNoFiles : FS := ⟨fun _ => false, fun _ => true⟩

/-- Every file present, storage directory exists. -/
def fsDirAllFiles : FS := ⟨fun _ => true, fun _ => true⟩

/-- Placeholder planner state. -/
def dState0 : DState :=
  ⟨"", "", "", ⟨0, 0, none⟩, none, none, none, false, [], [], [], 0⟩

/-- The state built for `exP` over a complete local mirror. -/
def exStFull : DState :=
  (datasetInit exDM exP fsDirAllFiles).toOption.getD dState0

/-- The state built for `exP` over an existing but empty directory. -/
def exStScan : DState :=
  (datasetInit exDM exP fsDirNoFiles).toOption.getD dState0

/-! Helper lemmas. -/

lemma lt_pyRangeLen_iff {a b s : Int} (hs : 0 < s) (k : Nat) :
    k < pyRangeLen a b s ↔ a + s * (k : Int) < b := by
  unfold pyRangeLen
  rw [if_pos hs, Int.lt_toNat, Int.lt_iff_add_one_le,
    Int.le_ediv_iff_mul_le hs]
  constructor <;> intro h <;> nlinarith

lemma mem_pyRange {a b s y : Int} (hs : 0 < s) :
    y ∈ pyRange a b s ↔ ∃ k : Nat, y = a + s * (k : Int) ∧ y < b := by
  unfold pyRange
  simp only [List.mem_map, List.mem_range]
  constructor
  · rintro ⟨i, hi, rfl⟩
    exact ⟨i, rfl, (lt_pyRangeLen_iff hs i).mp hi⟩
  · rintro ⟨k, rfl, hlt⟩
    exact ⟨k, (lt_pyRangeLen_iff hs k).mpr hlt, rfl⟩

/-- Success characterization of one scan step: the filename rendered,
`totalFiles` extended, and either the present or the missing side
extended according to `isfile`. -/
lemma scanStep_ok {fs : FS} {cfg : String} {check : Bool} {st : ScanSt}
    {j : Job} {st' : ScanSt} (h : scanStep fs cfg check st j = Except.ok st') :
    ∃ filename, j.filenameE = Except.ok filename ∧
      ((fs.isfile filename = true ∧
        st' = { st with
                  totalFiles := st.totalFiles ++ [(cfg, filename)]
                  downloadedFiles :=
                    st.downloadedFiles ++ [(cfg, filename)] }) ∨
       (fs.isfile filename = false ∧ ∃ sh, j.shape = Except.ok sh ∧
        st' = { st with
                  prepared := false
                  incomplete_count :=
                    st.incomplete_count + (if check then 1 else 0)
                  toDownload := st.toDownload ++ [(cfg, filename, sh)]
                  totalFiles := st.totalFiles ++ [(cfg, filename)] })) := by
  unfold scanStep at h
  split at h
  · exact absurd h (by simp)
  · rename_i filename hfn
    split at h
    · rename_i hex
      injection h with h
      exact ⟨filename, hfn, Or.inl ⟨hex, h.symm⟩⟩
    · rename_i hex
      split at h
      · exact absurd h (by simp)
      · rename_i sh hsh
        injection h with h
        exact ⟨filename, hfn, Or.inr ⟨by simpa using hex, sh, hsh, h.symm⟩⟩

/-- A property preserved by every successful scan step is carried through
the whole scan loop. -/
lemma scanJobs_inv {fs : FS} {cfg : String} {check : Bool}
    (P : ScanSt → Prop)
    (hstep : ∀ st j st', P st →
      scanStep fs cfg check st j = Except.ok st' → P st') :
    ∀ (js : List Job) (st st' : ScanSt), P st →
      scanJobs fs cfg check st js = Except.ok st' → P st' := by
  intro js
  induction js with
  | nil =>
    intro st st' hP h
    unfold scanJobs at h
    injection h with h
    exact h ▸ hP
  | cons j js ih =>
    intro st st' hP h
    unfold scanJobs at h
    cases hs : scanStep fs cfg check st j with
    | error e => rw [hs] at h; exact absurd h (by simp)
    | ok st2 => rw [hs] at h; exact ih st2 st' (hstep st j st2 hP hs) h

/-- The scan keeps `prepared` equal to: the directory existed and
nothing is missing so far. -/
lemma scanStep_prepared_inv {fs : FS} {cfg : String} {check : Bool}
    (d : Bool) :
    ∀ (st : ScanSt) (j : Job) (st' : ScanSt),
      (st.prepared = true ↔ d = true ∧ st.toDownload = []) →
      scanStep fs cfg check st j = Except.ok st' →
      (st'.prepared = true ↔ d = true ∧ st'.toDownload = []) := by
  intro st j st' hP h
  obtain ⟨fn, hfn, hcase⟩ := scanStep_ok h
  rcases hcase with ⟨hex, rfl⟩ | ⟨hex, sh, hsh, rfl⟩
  · simpa using hP
  · simp

/-- The scan keeps the present list equal to the `isfile` filtration of
the total list, and the missing projection equal to its complement. -/
lemma scanStep_partition_inv {fs : FS} {cfg : String} {check : Bool} :
    ∀ (st : ScanSt) (j : Job) (st' : ScanSt),
      (st.downloadedFiles = st.totalFiles.filter (fun a => fs.isfile a.2) ∧
       st.toDownload.map missingProj
         = st.totalFiles.filter (fun a => !fs.isfile a.2)) →
      scanStep fs cfg check st j = Except.ok st' →
      (st'.downloadedFiles = st'.totalFiles.filter (fun a => fs.isfile a.2) ∧
       st'.toDownload.map missingProj
         = st'.totalFiles.filter (fun a => !fs.isfile a.2)) := by
  intro st j st' hP h
  obtain ⟨h1, h2⟩ := hP
  obtain ⟨fn, hfn, hcase⟩ := scanStep_ok h
  rcases hcase with ⟨hex, rfl⟩ | ⟨hex, sh, hsh, rfl⟩
  · constructor
    · simp [List.filter_append, hex, h1]
    · simp [List.filter_append, hex, h2]
  · constructor
    · simp [List.filter_append, hex, h1]
    · simp [List.filter_append, hex, h2, missingProj]

/-- Successful construction decomposed into its stages. -/
lemma datasetInit_ok {dm : DatasetModule} {p : DatasetParams} {fs : FS}
    {s : DState} (h : datasetInit dm p fs = Except.ok s) :
    ∃ wc slices jobs st,
      dm.wdc p.weather_data_config = some wc ∧
      resolveSlices p.bounds p.weather_data_config = Except.ok slices ∧
      mkJobs dm wc p (expandRange p.years)
          (expandRange (p.months.getD ⟨1, 12, none⟩)) = Except.ok jobs ∧
      scanJobs fs p.weather_data_config (fs.isdir dm.datadir)
          ⟨fs.isdir dm.datadir, 0, [], [], []⟩ jobs = Except.ok st ∧
      s.prepared = st.prepared ∧ s.toDownload = st.toDownload ∧
      s.downloadedFiles = st.downloadedFiles ∧
      s.totalFiles = st.totalFiles ∧
      s.xs = slices.map Prod.fst ∧ s.ys = slices.map Prod.snd := by
  unfold datasetInit at h
  split at h
  · exact absurd h (by simp)
  · rename_i wc hwc
    split at h
    · exact absurd h (by simp)
    · rename_i slices hsl
      split at h
      · exact absurd h (by simp)
      · rename_i st hsp
        unfold scanPart at hsp
        split at hsp
        · exact absurd hsp (by simp)
        · rename_i jobs hj
          injection h with h
          exact ⟨wc, slices, jobs, st, hwc, hsl, hj, hsp,
            by rw [← h], by rw [← h], by rw [← h], by rw [← h],
            by rw [← h], by rw [← h]⟩

/-! Claim theorems. -/

/-- C1, counterexample: with the storage directory absent but every
rendered file present, construction ends with an empty missing list and
`prepared = false` — refuting "prepared iff missing is empty"
(`prepared` starts true only when the directory exists, line 103). -/
theorem c1_counterexample :
    (datasetInit exDM exP fsFilesNoDir).toOption.map
        (fun s => (s.prepared, s.toDownload)) = some (false, []) := by
  rfl

/-- C1, amended: immediately after construction, `prepared` is true iff
the storage directory existed and the missing (to-download) list is
empty. -/
theorem c1_prepared_iff (dm : DatasetModule) (p : DatasetParams) (fs : FS)
    (s : DState) (h : datasetInit dm p fs = Except.ok s) :
    s.prepared = true ↔
      (fs.isdir dm.datadir = true ∧ s.toDownload = []) := by
  obtain ⟨wc, slices, jobs, st, hwc, hsl, hj, hscan, hp, ht, _, _, _, _⟩ :=
    datasetInit_ok h
  rw [hp, ht]
  exact scanJobs_inv
    (fun st => st.prepared = true ↔
      (fs.isdir dm.datadir = true ∧ st.toDownload = []))
    (scanStep_prepared_inv (fs.isdir dm.datadir))
    jobs _ st (by simp) hscan

/-- C1, witness: over a complete mirror in an existing directory,
`prepared` ends true and the equivalence holds. -/
theorem c1_witness :
    exStFull.prepared = true ↔
      (fsDirAllFiles.isdir exDM.datadir = true ∧ exStFull.toDownload = []) :=
  c1_prepared_iff exDM exP fsDirAllFiles exStFull (by rfl)

/-- C2: the scan partitions the enumerated artifacts exactly — the
present list is the `isfile` filtration of the total list, the missing
list (projected to (config, filename)) is its complement, their
concatenation is a permutation of the total list, every total artifact
is on one side, and no artifact is on both. -/
theorem c2_partition (dm : DatasetModule) (p : DatasetParams) (fs : FS)
    (s : DState) (h : datasetInit dm p fs = Except.ok s) :
    s.downloadedFiles = s.totalFiles.filter (fun a => fs.isfile a.2) ∧
    s.toDownload.map missingProj
      = s.totalFiles.filter (fun a => !fs.isfile a.2) ∧
    (s.downloadedFiles ++ s.toDownload.map missingProj).Perm s.totalFiles ∧
    (∀ a ∈ s.totalFiles,
      a ∈ s.downloadedFiles ∨ a ∈ s.toDownload.map missingProj) ∧
    (∀ a ∈ s.downloadedFiles, a ∉ s.toDownload.map missingProj) := by
  obtain ⟨wc, slices, jobs, st, hwc, hsl, hj, hscan, _, ht, hd, htot, _, _⟩ :=
    datasetInit_ok h
  obtain ⟨h1, h2⟩ := scanJobs_inv
    (fun st =>
      st.downloadedFiles = st.totalFiles.filter (fun a => fs.isfile a.2) ∧
      st.toDownload.map missingProj
        = st.totalFiles.filter (fun a => !fs.isfile a.2))
    scanStep_partition_inv jobs _ st (by simp) hscan
  rw [ht, hd, htot]
  refine ⟨h1, h2, ?_, ?_, ?_⟩
  · rw [h1, h2]
    exact List.filter_append_perm _ _
  · intro a ha
    by_cases hf : fs.isfile a.2 = true
    · exact Or.inl (h1 ▸ List.mem_filter.mpr ⟨ha, hf⟩)
    · exact Or.inr (h2 ▸ List.mem_filter.mpr ⟨ha, by simpa using hf⟩)
  · intro a ha hmem
    rw [h1] at ha
    rw [h2] at hmem
    have hpa := (List.mem_filter.mp ha).2
    have hna := (List.mem_filter.mp hmem).2
    simp [hpa] at hna

/-- C2, witness: the partition equalities at a concrete scan over an
existing but empty directory. -/
theorem c2_witness :
    exStScan.downloadedFiles
      = exStScan.totalFiles.filter (fun a => fsDirNoFiles.isfile a.2) ∧
    exStScan.toDownload.map missingProj
      = exStScan.totalFiles.filter (fun a => !fsDirNoFiles.isfile a.2) ∧
    (exStScan.downloadedFiles
        ++ exStScan.toDownload.map missingProj).Perm exStScan.totalFiles ∧
    (∀ a ∈ exStScan.totalFiles,
      a ∈ exStScan.downloadedFiles ∨
        a ∈ exStScan.toDownload.map missingProj) ∧
    (∀ a ∈ exStScan.downloadedFiles,
      a ∉ exStScan.toDownload.map missingProj) :=
  c2_partition exDM exP fsDirNoFiles exStScan (by rfl)

/-- Construction assembled from its successful stages. -/
lemma datasetInit_build {dm : DatasetModule} {p : DatasetParams} {fs : FS}
    {wc : WeatherConfig} {sl : Option ((Int × Int) × (Int × Int))}
    {st : ScanSt}
    (hwc : dm.wdc p.weather_data_config = some wc)
    (hsl : resolveSlices p.bounds p.weather_data_config = Except.ok sl)
    (hscan : scanPart dm wc p fs = Except.ok st) :
    datasetInit dm p fs = Except.ok
      { module := p.module
        config := p.weather_data_config
        datadir := dm.datadir
        months := p.months.getD ⟨1, 12, none⟩
        xs := sl.map Prod.fst
        ys := sl.map Prod.snd
        bounds := p.bounds
        prepared := st.prepared
        toDownload := st.toDownload
        downloadedFiles := st.downloadedFiles
        totalFiles := st.totalFiles
        incomplete_count := st.incomplete_count } := by
  simp only [datasetInit, hwc, hsl, hscan]

/-- Bounds resolution errors exactly on the `boundsInvalid` condition,
with the error of lines 93/96; otherwise it succeeds, yielding no slices
when bounds were absent. -/
lemma resolveSlices_spec (p : DatasetParams) :
    (boundsInvalid p = true →
      resolveSlices p.bounds p.weather_data_config
        = Except.error (boundsError p)) ∧
    (boundsInvalid p = false →
      ∃ sl, resolveSlices p.bounds p.weather_data_config = Except.ok sl ∧
        (p.bounds = none → sl = none)) := by
  unfold boundsInvalid boundsError resolveSlices
  cases hb : p.bounds with
  | none =>
    by_cases hc : p.weather_data_config = "modis_land_cover"
    · rw [if_pos hc]
      constructor
      · intro _; rfl
      · intro hfalse
        rw [hc] at hfalse
        simp at hfalse
    · rw [if_neg hc]
      constructor
      · intro htrue
        exact absurd htrue (by simpa using hc)
      · intro _
        exact ⟨none, rfl, fun _ => rfl⟩
  | some bv =>
    cases bv with
    | nonList =>
      exact ⟨fun _ => rfl, fun hfalse => by simp at hfalse⟩
    | lst xs =>
      match xs with
      | [] => exact ⟨fun _ => rfl, fun hfalse => by simp at hfalse⟩
      | [a] => exact ⟨fun _ => rfl, fun hfalse => by simp at hfalse⟩
      | [a, b] => exact ⟨fun _ => rfl, fun hfalse => by simp at hfalse⟩
      | [a, b, c] => exact ⟨fun _ => rfl, fun hfalse => by simp at hfalse⟩
      | [a, b, c, d] =>
        exact ⟨fun htrue => by simp at htrue,
          fun _ => ⟨some ((a, c), (d, b)), rfl, by simp⟩⟩
      | a :: b :: c :: d :: e :: t =>
        refine ⟨fun _ => rfl, fun hfalse => ?_⟩
        simp at hfalse

/-- C5: construction fails with the `ValueError` of lines 93/96 exactly
for malformed bounds or absent bounds on the land-cover variant; with
valid bounds handling (and a successful enumeration/scan) it succeeds,
and an absent bounds value leaves the scope unbounded (no slices). -/
theorem c5_bounds_errors (dm : DatasetModule) (p : DatasetParams) (fs : FS)
    (wc : WeatherConfig) (st : ScanSt)
    (hwc : dm.wdc p.weather_data_config = some wc) :
    (boundsInvalid p = true →
      datasetInit dm p fs = Except.error (boundsError p) ∧
      (boundsError p = GErr.badBoundsShape ∨
        boundsError p = GErr.missingBoundsModis)) ∧
    (boundsInvalid p = false → scanPart dm wc p fs = Except.ok st →
      ∃ s, datasetInit dm p fs = Except.ok s ∧
        (p.bounds = none → s.xs = none ∧ s.ys = none)) := by
  constructor
  · intro hinv
    have herr := (resolveSlices_spec p).1 hinv
    constructor
    · unfold datasetInit
      rw [hwc, herr]
    · unfold boundsError
      cases p.bounds <;> simp
  · intro hval hscan
    obtain ⟨sl, hsl, hnone⟩ := (resolveSlices_spec p).2 hval
    refine ⟨_, datasetInit_build hwc hsl hscan, ?_⟩
    intro hb
    rw [hnone hb]
    exact ⟨rfl, rfl⟩

/-- C5, witness: the land-cover request without bounds fails with the
missing-bounds error. -/
theorem c5_witness :
    datasetInit exDM2 exPmodis fsDirAllFiles
      = Except.error (boundsError exPmodis) ∧
    (boundsError exPmodis = GErr.badBoundsShape ∨
      boundsError exPmodis = GErr.missingBoundsModis) :=
  (c5_bounds_errors exDM2 exPmodis fsDirAllFiles exWCmodis
    ⟨false, 0, [], [], []⟩ (by rfl)).1 (by rfl)

/-- A successful `mo_tuples` comprehension is the pure per-pair
`monthrange` day count. -/
lemma moTuplesGo_ok :
    ∀ (l : List (Int × Int)) (r : List (Int × Int × Nat)),
      moTuplesGo l = Except.ok r →
      r = l.map (fun q => (q.1, q.2, monthDays q.1 q.2)) := by
  intro l
  induction l with
  | nil =>
    intro r h
    unfold moTuplesGo at h
    injection h with h
    rw [← h]
    rfl
  | cons q rest ih =>
    intro r h
    unfold moTuplesGo at h
    split at h
    · exact absurd h (by simp)
    · rename_i nd hm
      split at h
      · exact absurd h (by simp)
      · rename_i l2 hg
        injection h with h
        have hnd : nd = monthDays q.1 q.2 := by
          unfold monthrangeDays at hm
          split at hm
          · injection hm with hm
            exact hm.symm
          · exact absurd hm (by simp)
        rw [← h, hnd, ih l2 hg]
        rfl

/-- C6: a successful `daily`/`dailymeans` enumeration emits, for every
year of the year range and month of the month range, exactly one
artifact per calendar day 1..days-in-month, leap-year aware: February
has 29 days in 2020 and 28 in 2019. -/
theorem c6_daily_days (dm : DatasetModule) (wc : WeatherConfig)
    (yrs mos : List Int) (jobs : List Job)
    (h : mkJobsDaily dm wc yrs mos = Except.ok jobs) :
    jobs.map Job.key
      = yrs.flatMap (fun y => mos.flatMap (fun m =>
          (List.range' 1 (monthDays y m)).map
            (fun d : Nat => [y, m, (d : Int)]))) ∧
    monthDays 2020 2 = 29 ∧ monthDays 2019 2 = 28 := by
  refine ⟨?_, by decide, by decide⟩
  unfold mkJobsDaily at h
  split at h
  · exact absurd h (by simp)
  · rename_i tuples hm
    injection h with h
    rw [← h, moTuplesGo_ok _ _ hm]
    unfold crossPairs
    simp only [List.map_flatMap, List.flatMap_map, List.map_map,
      List.flatMap_assoc, Function.comp]
    rfl

/-- C6, witness: the characterization applied at a trivially successful
enumeration, together with the two leap-year day counts. -/
theorem c6_witness :
    (([] : List Job)).map Job.key
      = ([] : List Int).flatMap (fun y => ([] : List Int).flatMap (fun m =>
          (List.range' 1 (monthDays y m)).map
            (fun d : Nat => [y, m, (d : Int)]))) ∧
    monthDays 2020 2 = 29 ∧ monthDays 2019 2 = 28 :=
  c6_daily_days exDM exWCdaily [] [] [] (by rfl)

/-- C7: a `monthly` request for years [2020, 2020] and months [1, 12]
enumerates exactly 12 artifacts keyed (2020, 1) .. (2020, 12) in order,
and in general the monthly enumeration is keyed by the year-major,
month-minor cross product of the expanded ranges. -/
theorem c7_monthly_enumeration :
    (∀ (dm : DatasetModule) (wc : WeatherConfig) (md : String),
      (mkJobsMonthly dm wc md (expandRange ⟨2020, 2020, none⟩)
          (expandRange ⟨1, 12, none⟩)).map Job.key
        = [[2020, 1], [2020, 2], [2020, 3], [2020, 4], [2020, 5],
           [2020, 6], [2020, 7], [2020, 8], [2020, 9], [2020, 10],
           [2020, 11], [2020, 12]]) ∧
    (∀ (dm : DatasetModule) (wc : WeatherConfig) (md : String)
        (yrs mos : List Int),
      (mkJobsMonthly dm wc md yrs mos).map Job.key
        = (crossPairs yrs mos).map (fun q => [q.1, q.2])) := by
  have hgen : ∀ (dm : DatasetModule) (wc : WeatherConfig) (md : String)
      (yrs mos : List Int),
      (mkJobsMonthly dm wc md yrs mos).map Job.key
        = (crossPairs yrs mos).map (fun q => [q.1, q.2]) := by
    intro dm wc md yrs mos
    unfold mkJobsMonthly
    rw [List.map_map]
    rfl
  refine ⟨?_, hgen⟩
  intro dm wc md
  rw [hgen]
  decide

/-- C9: when the configured granularity is none of the five handled tags
and the variant is not the land-cover one, construction succeeds with
empty total/present/missing lists and `prepared` equal to the existence
of the storage directory. -/
theorem c9_no_branch (dm : DatasetModule) (p : DatasetParams) (fs : FS)
    (wc : WeatherConfig)
    (hwc : dm.wdc p.weather_data_config = some wc)
    (hg : wc.file_granularity ∉
      (["daily", "dailymeans", "daily_multiple", "monthly",
        "monthly_multiple"] : List String))
    (hcfg : p.weather_data_config ≠ "modis_land_cover")
    (hb : boundsInvalid p = false) :
    ∃ s, datasetInit dm p fs = Except.ok s ∧ s.totalFiles = [] ∧
      s.downloadedFiles = [] ∧ s.toDownload = [] ∧
      s.prepared = fs.isdir dm.datadir := by
  obtain ⟨sl, hsl, _⟩ := (resolveSlices_spec p).2 hb
  simp only [List.mem_cons, List.not_mem_nil, or_false, not_or] at hg
  obtain ⟨h1, h2, h3, h4, h5⟩ := hg
  have hjobs : mkJobs dm wc p (expandRange p.years)
      (expandRange (p.months.getD ⟨1, 12, none⟩)) = Except.ok [] := by
    unfold mkJobs
    rw [if_neg (by tauto), if_neg h3, if_neg h4, if_neg h5, if_neg hcfg]
  have hscan : scanPart dm wc p fs
      = Except.ok ⟨fs.isdir dm.datadir, 0, [], [], []⟩ := by
    unfold scanPart
    rw [hjobs]
    rfl
  exact ⟨_, datasetInit_build hwc hsl hscan, rfl, rfl, rfl, rfl⟩

/-- C9, witness: the `yearly` tag of `exDM3` reaches no branch, so the
request builds an empty plan whose `prepared` mirrors the directory. -/
theorem c9_witness :
    ∃ s, datasetInit exDM3 exP fsDirNoFiles = Except.ok s ∧
      s.totalFiles = [] ∧ s.downloadedFiles = [] ∧ s.toDownload = [] ∧
      s.prepared = fsDirNoFiles.isdir exDM3.datadir :=
  c9_no_branch exDM3 exP fsDirNoFiles exWCyearly (by rfl) (by decide)
    (by decide) (by rfl)

/-- C3, counterexample: with step 2 the expansion of (2000, 2005, 2)
contains 2006, which exceeds the stop value 2005, and does not contain
2005 — the claimed inclusive-stop, never-exceeding behavior fails. -/
theorem c3_counterexample :
    expandRange ⟨2000, 2005, some 2⟩ = [2000, 2002, 2004, 2006] ∧
    (2006 : Int) ∈ expandRange ⟨2000, 2005, some 2⟩ ∧
    (2005 : Int) ∉ expandRange ⟨2000, 2005, some 2⟩ ∧
    (2005 : Int) < 2006 := by
  refine ⟨by decide, by decide, by decide, by decide⟩

/-- C3, amended: for any positive step the expanded values are exactly
the arithmetic progression start, start+step, ... strictly below
stop+step (so the last value may exceed stop when the step does not
divide stop-start); for the default step 1 the expansion is exactly the
inclusive interval start..stop. -/
theorem c3_range_expansion (r : PySlice) :
    (0 < effStep r.step →
      ∀ y : Int, y ∈ expandRange r ↔
        ∃ k : Nat, y = r.start + effStep r.step * (k : Int) ∧
          y < r.stop + effStep r.step) ∧
    (effStep r.step = 1 →
      ∀ y : Int, y ∈ expandRange r ↔ r.start ≤ y ∧ y ≤ r.stop) := by
  constructor
  · intro hs y
    exact mem_pyRange hs
  · intro h1 y
    unfold expandRange
    rw [h1, mem_pyRange Int.one_pos]
    constructor
    · rintro ⟨k, rfl, hlt⟩
      omega
    · intro h
      exact ⟨(y - r.start).toNat, by omega, by omega⟩

/-- C3, witness: with the default step, the stop year 2022 is included
in the expansion of (2020, 2022). -/
theorem c3_witness : (2022 : Int) ∈ expandRange ⟨2020, 2022, none⟩ :=
  ((c3_range_expansion ⟨2020, 2022, none⟩).2 rfl 2022).mpr (by decide)

/-- C4: for the documented bounds order [north, west, south, east] =
[50, -1, 49, 1], construction stores xs = (50, 49) = (north, south) and
ys = (1, -1) = (east, west), not the claimed xs = (west, east) = (-1, 1)
and ys = (south, north) = (49, 50): the positional unpacking on line 89
treats the list as [x1, y1, x2, y2]. -/
theorem c4_bounds_slices_swapped :
    (datasetInit exDM exPbounds fsDirAllFiles).toOption.map
        (fun s => (s.xs, s.ys))
      = some (some ((50 : Int), (49 : Int)), some ((1 : Int), (-1 : Int))) ∧
    ((50 : Int), (49 : Int)) ≠ ((-1 : Int), (1 : Int)) ∧
    ((1 : Int), (-1 : Int)) ≠ ((49 : Int), (50 : Int)) := by
  refine ⟨by rfl, by decide, by decide⟩

/-- C8: after the delegated acquisition call, `get_data` ends with
`prepared` true iff the present list equals the total list or it was
already true; when they differ the entire state is left unchanged. -/
theorem c8_get_data_prepared (s : DState) :
    ((get_data_check s).prepared = true ↔
      s.downloadedFiles = s.totalFiles ∨ s.prepared = true) ∧
    (s.downloadedFiles ≠ s.totalFiles → get_data_check s = s) := by
  unfold get_data_check
  by_cases h : s.downloadedFiles = s.totalFiles
  · rw [if_pos h]
    simp [h]
  · rw [if_neg h]
    simp [h]

/-- C8, witness: a state whose present list equals its total list is
marked prepared by the post-acquisition check. -/
theorem c8_witness : (get_data_check exStFull).prepared = true :=
  ((c8_get_data_prepared exStFull).1).mpr (Or.inl rfl)

/-- C10: `datasetfn` called with zero or more than three temporal args
returns the Python literal `False` (no rendered string, no exception),
for every template and module. -/
theorem c10_datasetfn_arg_count (dm : DatasetModule) (fn : List TItem)
    (args : List Int) (h : args.length = 0 ∨ 3 < args.length) :
    datasetfn dm fn args = Except.ok FnResult.pyFalse := by
  match args with
  | [] => rfl
  | [_] => simp at h
  | [_, _] => simp at h
  | [_, _, _] => simp at h
  | _ :: _ :: _ :: _ :: _ => rfl

/-- C10, witness: the zero-argument call on `exDM` with an arbitrary
template returns `False`. -/
theorem c10_witness :
    datasetfn exDM [TItem.fld TField.day 0] [] = Except.ok FnResult.pyFalse :=
  c10_datasetfn_arg_count exDM [TItem.fld TField.day 0] [] (Or.inl rfl)

end Geodata
